import Mathlib

/-!
A shallow embedding of `plot_results.py`.

The script loads a hard-coded table of (thread-count, elapsed-seconds)
measurements (lines 3-4), computes per-point speedups relative to the first
measurement (lines 7-8), composes a labelled line chart (lines 10-36), saves it
as `results_graph.png` at 300 dpi (lines 39-40) and prints one success message
(line 41).  Elapsed times are modelled as exact rationals; the two runtime
errors the computation can raise (`IndexError` from indexing an empty list,
`ZeroDivisionError` from a zero elapsed time) are modelled with `Except`.
-/

/-- An input measurement: a worker (thread) count paired with an elapsed time
in seconds. -/
structure Measurement where
  workers : ℤ
  elapsed_seconds : ℚ
  deriving DecidableEq

/-- A derived data point: a worker count paired with the computed speedup
ratio. -/
structure SpeedupPoint where
  workers : ℤ
  speedup : ℚ
  deriving DecidableEq

/-- The runtime errors the script can raise: `times[0]` on an empty list
raises IndexError (line 7); dividing by a zero elapsed time raises
ZeroDivisionError (line 8). -/
inductive PyError where
  | IndexError
  | ZeroDivisionError
  deriving DecidableEq

/-- Python division as used on line 8: raises ZeroDivisionError when the
divisor is zero, otherwise yields the exact quotient. -/
def pydiv (a b : ℚ) : Except PyError ℚ :=
  if b = 0 then .error .ZeroDivisionError else .ok (a / b)

/-- The list comprehension of line 8, `[base_time / t for t in times]`:
evaluated left to right, aborting at the first raised error. -/
def speedupRatios (base : ℚ) : List ℚ → Except PyError (List ℚ)
  | [] => .ok []
  | t :: ts =>
    match pydiv base t with
    | .error e => .error e
    | .ok s =>
      match speedupRatios base ts with
      | .error e => .error e
      | .ok rest => .ok (s :: rest)

/-- Lines 7-8 on the list of elapsed times: `base_time = times[0]` (IndexError
on an empty list), then the comprehension over all of `times`. -/
def speedupsOf : List ℚ → Except PyError (List ℚ)
  | [] => .error .IndexError
  | t0 :: ts => speedupRatios t0 (t0 :: ts)

/-- `base_time` of line 7 as a total function of the measurement list, with a
dummy value for the empty list (where the script instead raises IndexError). -/
def base_time (ms : List Measurement) : ℚ :=
  (ms.headD ⟨0, 0⟩).elapsed_seconds

/-- The speedup computation on a measurement sequence: lines 7-8 applied to
the elapsed times, with each resulting ratio paired back with its worker count
exactly as `zip(threads, speedups)` pairs them on line 19. -/
def compute_speedups (ms : List Measurement) : Except PyError (List SpeedupPoint) :=
  match speedupsOf (ms.map (·.elapsed_seconds)) with
  | .error e => .error e
  | .ok ss => .ok (List.zipWith (fun m s => SpeedupPoint.mk m.workers s) ms ss)

/-- The format expression of line 20 (two decimal places): rounds the exact
rational to the nearest hundredth (half away from zero upward) and prints it
with exactly two fractional digits.  This agrees with the floating-point
format on every value arising in this development (none is near a tie). -/
def fmt2 (q : ℚ) : String :=
  let n : ℤ := ⌊q * 100 + 1 / 2⌋
  let sgn := if n < 0 then "-" else ""
  let m := n.natAbs
  sgn ++ toString (m / 100) ++ "." ++ (if m % 100 < 10 then "0" else "") ++ toString (m % 100)

/-- One plotted curve: the x and y series with the style and legend label
passed to `plt.plot` (lines 13 and 16). -/
structure Curve where
  xs : List ℚ
  ys : List ℚ
  style : String
  label : String
  deriving DecidableEq

/-- One per-point text mark from `plt.annotate` (lines 19-26): text placed at
the data point, offset by (0, 10) display points and horizontally centred,
i.e. directly above the marker. -/
structure Annot where
  x : ℚ
  y : ℚ
  text : String
  dx : ℤ
  dy : ℤ
  deriving DecidableEq

/-- The chart state accumulated by lines 10-36. -/
structure Chart where
  title : String
  xlabel : String
  ylabel : String
  xticks : List ℚ
  curves : List Curve
  annots : List Annot
  grid : Bool
  legend : Bool
  deriving DecidableEq

/-- Lines 10-36: the chart composed from the thread counts and the computed
speedups. -/
def render (threads : List ℚ) (speedups : List ℚ) : Chart :=
  { title := "Wa-Tor Simulation Parallel Speedup"
    xlabel := "Number of Threads (Workers)"
    ylabel := "Speedup Factor"
    xticks := threads
    curves := [
      { xs := threads, ys := threads, style := "k--", label := "Ideal Linear Speedup" },
      { xs := threads, ys := speedups, style := "o", label := "Actual Speedup" }]
    annots := (threads.zip speedups).map
      (fun p => { x := p.1, y := p.2, text := fmt2 p.2 ++ "x", dx := 0, dy := 10 })
    grid := true
    legend := true }

/-- Line 39: the output filename is the fixed string used by `savefig`. -/
def output_filename : String := "results_graph.png"

/-- The observable outcome of a successful run: the composed chart, the path
and resolution given to `savefig` (line 40), and the console output of
line 41. -/
structure Output where
  chart : Chart
  savedPath : String
  dpi : ℕ
  console : List String
  deriving DecidableEq

/-- The whole script, parameterised by the dataset of lines 3-4: compute the
speedups (lines 7-8), then render, save and report (lines 10-41).  A raised
error aborts the run before any of lines 10-41: nothing is rendered, no file
is saved, nothing is printed. -/
def program (ms : List Measurement) : Except PyError Output :=
  match compute_speedups ms with
  | .error e => .error e
  | .ok ps =>
    .ok { chart := render (ms.map (fun m => (m.workers : ℚ))) (ps.map SpeedupPoint.speedup)
          savedPath := output_filename
          dpi := 300
          console := ["Success! Graph saved as " ++ output_filename] }

/-- The literal dataset of lines 3-4: threads `[1, 2, 4, 8]` with elapsed
times `[32.83, 15.95, 9.56, 6.31]` seconds. -/
def sampleData : List Measurement :=
  [⟨1, 3283/100⟩, ⟨2, 1595/100⟩, ⟨4, 956/100⟩, ⟨8, 631/100⟩]

/-- If no elapsed time in the list is zero, the comprehension of line 8
succeeds and returns exactly the list of quotients, in order. -/
theorem speedupRatios_ok (base : ℚ) (ts : List ℚ) (h : ∀ t ∈ ts, t ≠ 0) :
    speedupRatios base ts = .ok (ts.map (fun t => base / t)) := by
  induction ts with
  | nil => rfl
  | cons t ts ih =>
    have ht : t ≠ 0 := h t (by simp)
    simp [speedupRatios, pydiv, ht, ih (fun x hx => h x (by simp [hx]))]

/-- If some elapsed time in the list is zero, the comprehension of line 8
raises ZeroDivisionError. -/
theorem speedupRatios_zero (base : ℚ) (ts : List ℚ) (t : ℚ) (ht : t ∈ ts)
    (h0 : t = 0) : speedupRatios base ts = .error .ZeroDivisionError := by
  induction ts with
  | nil => cases ht
  | cons a ts ih =>
    by_cases ha : a = 0
    · simp [speedupRatios, pydiv, ha]
    · rcases List.mem_cons.mp ht with h | h
      · exact absurd (h ▸ h0) ha
      · simp [speedupRatios, pydiv, ha, ih h]

/-- On a non-empty dataset with no zero elapsed time, the computation of
lines 7-8 succeeds and yields, in order, one point per measurement carrying
its worker count and the ratio of the first elapsed time to its own. -/
theorem compute_speedups_ok (ms : List Measurement) (hne : ms ≠ [])
    (hnz : ∀ m ∈ ms, m.elapsed_seconds ≠ 0) :
    compute_speedups ms =
      .ok (ms.map (fun m => ⟨m.workers, base_time ms / m.elapsed_seconds⟩)) := by
  cases ms with
  | nil => exact absurd rfl hne
  | cons m0 rest =>
    have hz : ∀ t ∈ (m0 :: rest).map (·.elapsed_seconds), t ≠ 0 := by
      intro t htm
      rcases List.mem_map.mp htm with ⟨m, hm, rfl⟩
      exact hnz m hm
    simp only [compute_speedups, speedupsOf, List.map_cons]
    rw [show (m0.elapsed_seconds :: rest.map (·.elapsed_seconds)) =
          ((m0 :: rest).map (·.elapsed_seconds)) by simp,
        speedupRatios_ok _ _ hz]
    simp only [base_time, List.headD]
    rw [List.zipWith_map_right, List.zipWith_map_right, List.zipWith_same]
    simp

/-- Extracting the speedup components of the zipped points recovers the
computed ratio list (truncated to the measurement count). -/
theorem map_speedup_zipWith (ms : List Measurement) (ss : List ℚ) :
    (List.zipWith (fun m s => SpeedupPoint.mk m.workers s) ms ss).map SpeedupPoint.speedup =
      ss.take ms.length := by
  induction ms generalizing ss with
  | nil => simp
  | cons m ms ih =>
    cases ss with
    | nil => simp
    | cons s ss => simp [ih]

/-- C1: for every non-empty input whose elapsed times are all nonzero,
`compute_speedups` returns a sequence of the same length and order as the
input whose i-th element pairs the i-th worker count with
`baseline / elapsed_i`, the baseline being the first measurement's elapsed
time. -/
theorem compute_speedups_spec (ms : List Measurement) (hne : ms ≠ [])
    (hnz : ∀ m ∈ ms, m.elapsed_seconds ≠ 0) :
    compute_speedups ms =
      .ok (ms.map (fun m => ⟨m.workers, base_time ms / m.elapsed_seconds⟩)) :=
  compute_speedups_ok ms hne hnz

/-- Witness for C1: the specification instantiated on the literal dataset. -/
theorem compute_speedups_spec_witness :
    compute_speedups sampleData =
      .ok (sampleData.map (fun m => ⟨m.workers, base_time sampleData / m.elapsed_seconds⟩)) :=
  compute_speedups_spec sampleData (by simp [sampleData])
    (by intro m hm; fin_cases hm <;> norm_num)

/-- C2: for every non-empty input with positive elapsed times the first
returned speedup is exactly 1, and a single-measurement dataset yields
exactly one point whose speedup is 1. -/
theorem first_speedup_is_one (ms : List Measurement) (hne : ms ≠ [])
    (hpos : ∀ m ∈ ms, 0 < m.elapsed_seconds) :
    (compute_speedups ms).map (fun ps => ps.head?) =
      .ok (some ⟨(ms.headD ⟨0, 0⟩).workers, 1⟩) ∧
    (ms.length = 1 → compute_speedups ms = .ok [⟨(ms.headD ⟨0, 0⟩).workers, 1⟩]) := by
  have hnz : ∀ m ∈ ms, m.elapsed_seconds ≠ 0 := fun m hm => ne_of_gt (hpos m hm)
  rw [compute_speedups_ok ms hne hnz]
  cases ms with
  | nil => exact absurd rfl hne
  | cons m0 rest =>
    have h0 : m0.elapsed_seconds ≠ 0 := hnz m0 (by simp)
    constructor
    · simp [Except.map, base_time, div_self h0]
    · intro hl
      have hr : rest.length = 0 := by simpa using hl
      have : rest = [] := List.length_eq_zero.mp hr
      subst this
      simp [base_time, div_self h0]

/-- Witness for C2: a one-measurement dataset with 5 workers and elapsed
time 2 yields the single point with speedup 1. -/
theorem first_speedup_is_one_witness :
    ((compute_speedups [⟨5, 2⟩]).map (fun ps => ps.head?) = .ok (some ⟨5, 1⟩)) ∧
    compute_speedups [⟨5, 2⟩] = .ok [⟨5, 1⟩] :=
  ⟨(first_speedup_is_one [⟨5, 2⟩] (by simp) (by intro m hm; fin_cases hm <;> norm_num)).1,
   (first_speedup_is_one [⟨5, 2⟩] (by simp) (by intro m hm; fin_cases hm <;> norm_num)).2 rfl⟩

/-- C3: a dataset containing a zero elapsed time anywhere makes the run fail
with the ZeroDivisionError kind; the script aborts at line 8, so nothing is
rendered and no output file is produced (`program` yields no `Output`). -/
theorem zero_elapsed_fails (ms : List Measurement) (m : Measurement) (hm : m ∈ ms)
    (h0 : m.elapsed_seconds = 0) :
    program ms = .error PyError.ZeroDivisionError := by
  cases ms with
  | nil => cases hm
  | cons m0 rest =>
    have hz : speedupsOf (m0.elapsed_seconds :: rest.map (·.elapsed_seconds)) =
        .error .ZeroDivisionError := by
      simp only [speedupsOf]
      exact speedupRatios_zero _ _ m.elapsed_seconds
        (by simpa using List.mem_map_of_mem (·.elapsed_seconds) hm) h0
    simp [program, compute_speedups, hz]

/-- Witness for C3: a zero elapsed time in the second position aborts the
run with ZeroDivisionError. -/
theorem zero_elapsed_fails_witness :
    program [⟨4, 1⟩, ⟨8, 0⟩] = .error PyError.ZeroDivisionError :=
  zero_elapsed_fails _ ⟨8, 0⟩ (by simp) rfl

/-- Counterexample to C4: on a dataset whose worker counts are not strictly
increasing the run does not fail at all — it succeeds, so in particular it
raises no InvalidInputError kind and rendering is reached. -/
theorem no_input_validation_counterexample :
    (program [⟨2, 1⟩, ⟨1, 2⟩]).isOk = true := rfl

/-- C4 (amended): on an empty input the run fails with the IndexError kind
before any rendering; but the script performs no input validation beyond
that: any non-empty dataset with nonzero elapsed times — including ones with
non-increasing worker counts or negative elapsed times — succeeds, so no
InvalidInputError kind exists in the program. -/
theorem no_input_validation (ms : List Measurement) :
    (ms = [] → program ms = .error PyError.IndexError) ∧
    (ms ≠ [] → (∀ m ∈ ms, m.elapsed_seconds ≠ 0) → (program ms).isOk = true) := by
  constructor
  · rintro rfl; rfl
  · intro hne hnz
    simp [program, compute_speedups_ok ms hne hnz, Except.isOk, Except.toBool]

/-- Witness for C4 (amended): a dataset with non-increasing workers and a
negative elapsed time still runs to completion. -/
theorem no_input_validation_witness :
    (program [⟨2, 1⟩, ⟨1, -2⟩]).isOk = true :=
  (no_input_validation _).2 (by simp) (by intro m hm; fin_cases hm <;> norm_num)

/-- C5: on the literal embedded dataset the computed speedups are
32.83/32.83, 32.83/15.95, 32.83/9.56 and 32.83/6.31; the chart carries four
marks at x = 1, 2, 4, 8 annotated "1.00x", "2.06x", "3.43x" and "5.20x"
(two decimal places, an "x" suffix, offset (0, 10) i.e. directly above each
marker), the x-axis ticks are exactly 1, 2, 4, 8, and both curves run over
x = 1, 2, 4, 8. -/
theorem sample_run_spec :
    compute_speedups sampleData =
      .ok [⟨1, 1⟩, ⟨2, 3283/1595⟩, ⟨4, 3283/956⟩, ⟨8, 3283/631⟩] ∧
    (program sampleData).map (fun o => o.chart.annots) =
      .ok [⟨1, 1, "1.00x", 0, 10⟩, ⟨2, 3283/1595, "2.06x", 0, 10⟩,
        ⟨4, 3283/956, "3.43x", 0, 10⟩, ⟨8, 3283/631, "5.20x", 0, 10⟩] ∧
    (program sampleData).map (fun o => o.chart.xticks) = .ok [1, 2, 4, 8] ∧
    (program sampleData).map (fun o => o.chart.curves.map Curve.xs) =
      .ok [[1, 2, 4, 8], [1, 2, 4, 8]] := by
  have hcs : compute_speedups sampleData =
      .ok [⟨1, 1⟩, ⟨2, 3283/1595⟩, ⟨4, 3283/956⟩, ⟨8, 3283/631⟩] := by
    norm_num [compute_speedups, sampleData, speedupsOf, speedupRatios, pydiv]
  have f1 : fmt2 1 = "1.00" := by
    have h : (⌊(1 : ℚ) * 100 + 1/2⌋ : ℤ) = 100 := by norm_num
    simp only [fmt2, h]; decide
  have f2 : fmt2 (3283/1595) = "2.06" := by
    have h : (⌊(3283/1595 : ℚ) * 100 + 1/2⌋ : ℤ) = 206 := by norm_num
    simp only [fmt2, h]; decide
  have f3 : fmt2 (3283/956) = "3.43" := by
    have h : (⌊(3283/956 : ℚ) * 100 + 1/2⌋ : ℤ) = 343 := by norm_num
    simp only [fmt2, h]; decide
  have f4 : fmt2 (3283/631) = "5.20" := by
    have h : (⌊(3283/631 : ℚ) * 100 + 1/2⌋ : ℤ) = 520 := by norm_num
    simp only [fmt2, h]; decide
  have hprog : program sampleData =
      .ok { chart := render [1, 2, 4, 8] [1, 3283/1595, 3283/956, 3283/631]
            savedPath := output_filename
            dpi := 300
            console := ["Success! Graph saved as " ++ output_filename] } := by
    simp only [program, hcs]
    norm_num [sampleData]
  refine ⟨hcs, ?_, ?_, ?_⟩ <;>
    simp [hprog, render, Except.map, List.zip_cons_cons, f1, f2, f3, f4]

/-- C6: holding the baseline fixed, speedup strictly decreases in elapsed
time: for two measurements of the same successfully processed dataset, the
one with the smaller positive elapsed time receives the strictly larger
speedup. -/
theorem speedup_strict_antitone (ms : List Measurement) (hne : ms ≠ [])
    (hnz : ∀ m ∈ ms, m.elapsed_seconds ≠ 0) (hbase : 0 < base_time ms)
    (a b : Measurement) (ha : a ∈ ms) (hb : b ∈ ms)
    (hapos : 0 < a.elapsed_seconds) (hbpos : 0 < b.elapsed_seconds)
    (hab : a.elapsed_seconds < b.elapsed_seconds) :
    compute_speedups ms =
      .ok (ms.map (fun m => ⟨m.workers, base_time ms / m.elapsed_seconds⟩)) ∧
    (⟨a.workers, base_time ms / a.elapsed_seconds⟩ : SpeedupPoint) ∈
      ms.map (fun m => (⟨m.workers, base_time ms / m.elapsed_seconds⟩ : SpeedupPoint)) ∧
    (⟨b.workers, base_time ms / b.elapsed_seconds⟩ : SpeedupPoint) ∈
      ms.map (fun m => (⟨m.workers, base_time ms / m.elapsed_seconds⟩ : SpeedupPoint)) ∧
    base_time ms / b.elapsed_seconds < base_time ms / a.elapsed_seconds :=
  ⟨compute_speedups_ok ms hne hnz, List.mem_map_of_mem _ ha, List.mem_map_of_mem _ hb,
    div_lt_div_of_pos_left hbase hapos hab⟩

/-- Witness for C6: in the literal dataset the 8-worker run (6.31 s) gets a
strictly larger speedup than the 1-worker baseline run (32.83 s). -/
theorem speedup_strict_antitone_witness :
    compute_speedups sampleData =
      .ok (sampleData.map (fun m => ⟨m.workers, base_time sampleData / m.elapsed_seconds⟩)) ∧
    (⟨8, base_time sampleData / (631/100)⟩ : SpeedupPoint) ∈
      sampleData.map (fun m => (⟨m.workers, base_time sampleData / m.elapsed_seconds⟩ : SpeedupPoint)) ∧
    (⟨1, base_time sampleData / (3283/100)⟩ : SpeedupPoint) ∈
      sampleData.map (fun m => (⟨m.workers, base_time sampleData / m.elapsed_seconds⟩ : SpeedupPoint)) ∧
    base_time sampleData / (3283/100) < base_time sampleData / (631/100) :=
  speedup_strict_antitone sampleData (by simp [sampleData])
    (by intro m hm; fin_cases hm <;> norm_num)
    (by norm_num [base_time, sampleData])
    ⟨8, 631/100⟩ ⟨1, 3283/100⟩ (by simp [sampleData]) (by simp [sampleData])
    (by norm_num) (by norm_num) (by norm_num)

/-- C7: the computation is pure — two calls on the same input are one and
the same value, for the speedup computation and for the run as a whole;
there is no hidden state in the embedding, mirroring lines 7-8 which read
nothing but `times`. -/
theorem compute_speedups_deterministic (ms : List Measurement) :
    compute_speedups ms = compute_speedups ms ∧ program ms = program ms :=
  ⟨rfl, rfl⟩

/-- C8: every successful run's chart carries the title
"Wa-Tor Simulation Parallel Speedup", x-axis label
"Number of Threads (Workers)", y-axis label "Speedup Factor", and x-axis
ticks equal to exactly the workers values of the input, in order, with
nothing interpolated. -/
theorem chart_labels_and_ticks (ms : List Measurement) (hne : ms ≠ [])
    (hnz : ∀ m ∈ ms, m.elapsed_seconds ≠ 0) :
    (program ms).map (fun o => o.chart.title) = .ok "Wa-Tor Simulation Parallel Speedup" ∧
    (program ms).map (fun o => o.chart.xlabel) = .ok "Number of Threads (Workers)" ∧
    (program ms).map (fun o => o.chart.ylabel) = .ok "Speedup Factor" ∧
    (program ms).map (fun o => o.chart.xticks) = .ok (ms.map (fun m => (m.workers : ℚ))) := by
  simp [program, compute_speedups_ok ms hne hnz, render, Except.map]

/-- Witness for C8: the labels and ticks on the literal dataset. -/
theorem chart_labels_and_ticks_witness :
    (program sampleData).map (fun o => o.chart.title) = .ok "Wa-Tor Simulation Parallel Speedup" ∧
    (program sampleData).map (fun o => o.chart.xlabel) = .ok "Number of Threads (Workers)" ∧
    (program sampleData).map (fun o => o.chart.ylabel) = .ok "Speedup Factor" ∧
    (program sampleData).map (fun o => o.chart.xticks) =
      .ok (sampleData.map (fun m => (m.workers : ℚ))) :=
  chart_labels_and_ticks sampleData (by simp [sampleData])
    (by intro m hm; fin_cases hm <;> norm_num)

/-- C9: every successful run saves the chart to the fixed output path
"results_graph.png" at 300 dots per inch and prints exactly one console
message, which names that output file. -/
theorem save_and_report (ms : List Measurement) (hne : ms ≠ [])
    (hnz : ∀ m ∈ ms, m.elapsed_seconds ≠ 0) :
    output_filename = "results_graph.png" ∧
    (program ms).map (fun o => o.savedPath) = .ok output_filename ∧
    (program ms).map (fun o => o.dpi) = .ok 300 ∧
    (program ms).map (fun o => o.console) =
      .ok ["Success! Graph saved as " ++ output_filename] := by
  refine ⟨rfl, ?_⟩
  simp [program, compute_speedups_ok ms hne hnz, Except.map]

/-- Witness for C9: the save path, resolution and console report on the
literal dataset. -/
theorem save_and_report_witness :
    output_filename = "results_graph.png" ∧
    (program sampleData).map (fun o => o.savedPath) = .ok output_filename ∧
    (program sampleData).map (fun o => o.dpi) = .ok 300 ∧
    (program sampleData).map (fun o => o.console) =
      .ok ["Success! Graph saved as " ++ output_filename] :=
  save_and_report sampleData (by simp [sampleData])
    (by intro m hm; fin_cases hm <;> norm_num)

/-- C10: the speedup values depend only on the elapsed times: two datasets
with identical elapsed-time sequences produce identical speedup values at
every position (and identical error outcomes), whatever their workers
columns hold. -/
theorem speedups_ignore_workers (ms1 ms2 : List Measurement)
    (h : ms1.map (·.elapsed_seconds) = ms2.map (·.elapsed_seconds)) :
    (compute_speedups ms1).map (List.map SpeedupPoint.speedup) =
      (compute_speedups ms2).map (List.map SpeedupPoint.speedup) := by
  have hlen : ms1.length = ms2.length := by
    simpa using congrArg List.length h
  simp only [compute_speedups, h]
  cases hs : speedupsOf (ms2.map (·.elapsed_seconds)) with
  | error e => rfl
  | ok ss => simp [Except.map, map_speedup_zipWith, hlen]

/-- Witness for C10: same elapsed times under different workers columns give
the same speedup values. -/
theorem speedups_ignore_workers_witness :
    (compute_speedups [⟨1, 2⟩, ⟨2, 4⟩]).map (List.map SpeedupPoint.speedup) =
      (compute_speedups [⟨7, 2⟩, ⟨3, 4⟩]).map (List.map SpeedupPoint.speedup) :=
  speedups_ignore_workers _ _ (by simp)
